import Mathlib

/-!
Shallow embedding of `ShortenWorker.run` from `src/main.py`.

The worker loads a workbook, collects every truthy cell of column 2 from
row 2 onward, and for each collected cell: checks a cancellation flag,
emits a progress event `int((i / total) * 100)` with the cell's URL, calls
the shortening API, and on a JSON response with `status == 200` writes
`shorturl` into column 3 of that cell's row and logs a success line,
otherwise logs a failure line.  A `requests.RequestException` or any other
exception raised inside the per-row `try` block is caught there and logged,
and the loop continues.  After the loop the worker emits `progress(100,
"完了")`, and saves the workbook only if the cancellation flag was never
set; a `FileNotFoundError` or any exception raised outside the loop body is
caught by the outer handler, which emits a single terminal message and
never saves.
-/

/-- A Python cell value, as openpyxl hands it to `cell.value`: `None`, a
string, an int, or a bool.  Only the constructors the claims exercise are
modelled. -/
inductive PyVal where
  | none
  | str (s : String)
  | int (n : Int)
  | bool (b : Bool)
  deriving DecidableEq, Repr

/-- Python truthiness of a cell value, embedding the test `if cell.value:`
at line 29 of `src/main.py`. -/
def PyVal.truthy : PyVal → Bool
  | PyVal.none => false
  | PyVal.str s => s ≠ ""
  | PyVal.int n => n ≠ 0
  | PyVal.bool b => b

/-- Python `str()` of a cell value, as an f-string renders it. -/
def pyStr : PyVal → String
  | PyVal.none => "None"
  | PyVal.str s => s
  | PyVal.int n => toString n
  | PyVal.bool true => "True"
  | PyVal.bool false => "False"

/-- Python `str()` of the `shorturl` field (`None` or a string). -/
def optStr : Option String → String
  | Option.none => "None"
  | Option.some s => s

/-- The Python value a `.get("shorturl")` result denotes when assigned to a
cell: `None` stays `None`, a string stays a string. -/
def pvOfOpt : Option String → PyVal
  | Option.none => PyVal.none
  | Option.some s => PyVal.str s

/-- One spreadsheet row from row 2 onward: `b` is the URL cell (column 2),
`c` the output cell (column 3). -/
structure RowEntry where
  b : PyVal
  c : PyVal
  deriving DecidableEq, Repr

/-- The fields of the API's JSON response that lines 49-54 of
`src/main.py` read: `.get("status")`, `.get("shorturl")`,
`.get("error", ...)`.  A missing field is `Option.none`; a `status` that is
not an int compares unequal to `200` in Python exactly as `Option.none`
does here. -/
structure ApiResponse where
  status : Option Int
  shorturl : Option String
  error : Option String
  deriving DecidableEq, Repr

/-- Outcome of one `requests.get` + `response.json()` call: a decoded JSON
response, a `requests.RequestException` (line 57), or any other exception
raised inside the per-row `try` block (line 59), modelled as raised during
the call or JSON decoding, before any cell write. -/
inductive ApiOutcome where
  | json (resp : ApiResponse)
  | requestError (msg : String)
  | otherError (msg : String)
  deriving DecidableEq, Repr

/-- A cross-thread event the worker emits: `progress_updated`,
`log_updated`, or `finished`. -/
inductive Event where
  | progress (pct : Nat) (url : PyVal)
  | log (line : String)
  | finished (msg : String)
  deriving DecidableEq, Repr

/-- The collection loop of lines 27-30: walk the rows of column 2 from row
2 keeping the truthy cells together with their position.  `start` is the
0-based index of the first row of `sheet` (row number minus 2). -/
def collectUrlsFrom : Nat → List RowEntry → List (Nat × PyVal)
  | _, [] => []
  | start, e :: rest =>
      if e.b.truthy then (start, e.b) :: collectUrlsFrom (start + 1) rest
      else collectUrlsFrom (start + 1) rest

/-- `urls_to_shorten` of line 26: the truthy cells of column 2, row 2
onward, with their 0-based row index. -/
def collectUrls (sheet : List RowEntry) : List (Nat × PyVal) :=
  collectUrlsFrom 0 sheet

/-- The write `sheet.cell(row=cell.row, column=3).value = short_url` of
line 51: set the output cell of row `idx`. -/
def writeCell : List RowEntry → Nat → PyVal → List RowEntry
  | [], _, _ => []
  | e :: rest, 0, v => { e with c := v } :: rest
  | e :: rest, n + 1, v => e :: writeCell rest n v

/-- Read the output cell (column 3) of row `idx`. -/
def cellC (sheet : List RowEntry) (idx : Nat) : PyVal :=
  (sheet.getD idx { b := PyVal.none, c := PyVal.none }).c

/-- The percentage `int((i / total) * 100)` of line 42.  Python computes it
in binary floating point, which for a few inputs lands one below the exact
value; both versions are monotone in `i` and at most `100`, which is all
the claims use, and they agree on every concrete input evaluated below. -/
def pct (i total : Nat) : Nat :=
  (i * 100) / total

/-- Result of one iteration or of a whole run over the sheet: the
in-memory sheet, the events emitted, and the trace of output-cell writes
performed (row index and value written). -/
structure StepResult where
  sheet : List RowEntry
  events : List Event
  writes : List (Nat × PyVal)
  deriving DecidableEq, Repr

/-- The body of the per-row `try` block, lines 44-60: interpret the call's
outcome, write the output cell and log success on `status == 200`, log a
failure line otherwise, and log (without writing) on either caught
exception. -/
def processRow (outcome : ApiOutcome) (rowIdx : Nat) (url : PyVal)
    (sheet : List RowEntry) : StepResult :=
  match outcome with
  | ApiOutcome.json resp =>
      if resp.status = Option.some 200 then
        { sheet := writeCell sheet rowIdx (pvOfOpt resp.shorturl),
          events := [Event.log ("成功: " ++ pyStr url ++ " -> " ++ optStr resp.shorturl)],
          writes := [(rowIdx, pvOfOpt resp.shorturl)] }
      else
        { sheet := sheet,
          events := [Event.log ("失敗: " ++ pyStr url ++ " (" ++ resp.error.getD "不明なエラー" ++ ")")],
          writes := [] }
  | ApiOutcome.requestError e =>
      { sheet := sheet,
        events := [Event.log ("APIリクエストエラー: " ++ pyStr url ++ " (" ++ e ++ ")")],
        writes := [] }
  | ApiOutcome.otherError e =>
      { sheet := sheet,
        events := [Event.log ("エラー: " ++ pyStr url ++ " (" ++ e ++ ")")],
        writes := [] }

/-- The cancellation flag `self.is_running` as observed at the `i`-th
check.  `stop()` flips the flag once, asynchronously; `stopAt = some k`
means the flip lands between the `(k-1)`-th and the `k`-th check, so check
`i` sees `True` exactly when `i < k`; `stopAt = none` means `stop()` is
never called. -/
def running (stopAt : Option Nat) (i : Nat) : Bool :=
  match stopAt with
  | Option.none => true
  | Option.some k => i < k

/-- The main loop of lines 37-60: for each remaining collected cell, break
if cancelled, emit the progress event, then run the per-row body.  `i` is
the `enumerate` counter. -/
def loopGo (api : Nat → ApiOutcome) (stopAt : Option Nat) (total : Nat) :
    Nat → List (Nat × PyVal) → List RowEntry → StepResult
  | _, [], sheet => { sheet := sheet, events := [], writes := [] }
  | i, (r, url) :: rest, sheet =>
      if running stopAt i then
        let step := processRow (api i) r url sheet
        let more := loopGo api stopAt total (i + 1) rest step.sheet
        { sheet := more.sheet,
          events := Event.progress (pct i total) url :: (step.events ++ more.events),
          writes := step.writes ++ more.writes }
      else
        { sheet := sheet, events := [], writes := [] }

/-- Outcome of `openpyxl.load_workbook` at line 23: the active sheet, a
`FileNotFoundError` (line 71), or any other exception raised outside the
per-row `try` block (line 73). -/
inductive LoadResult where
  | ok (sheet : List RowEntry)
  | fileNotFound
  | loadError (msg : String)
  deriving DecidableEq, Repr

/-- Result of a whole run: the final in-memory sheet, the events emitted
in order, the sheet passed to `workbook.save` if it was called, and the
trace of output-cell writes. -/
structure RunResult where
  sheet : List RowEntry
  events : List Event
  saved : Option (List RowEntry)
  writes : List (Nat × PyVal)
  deriving DecidableEq, Repr

/-- `ShortenWorker.run`, lines 21-74: load, collect, early-return when no
URLs, loop, emit the final `progress(100, "完了")`, then save and report
success only if never cancelled. -/
def runWorker (filepath : String) (load : LoadResult) (api : Nat → ApiOutcome)
    (stopAt : Option Nat) : RunResult :=
  match load with
  | LoadResult.fileNotFound =>
      { sheet := [],
        events := [Event.finished "エラー: ファイルが見つかりません。"],
        saved := Option.none, writes := [] }
  | LoadResult.loadError e =>
      { sheet := [],
        events := [Event.finished ("予期せぬエラーが発生しました: " ++ e)],
        saved := Option.none, writes := [] }
  | LoadResult.ok sheet =>
      let urls := collectUrls sheet
      let total := urls.length
      if total = 0 then
        { sheet := sheet,
          events := [Event.finished "短縮するURLが見つかりませんでした。"],
          saved := Option.none, writes := [] }
      else
        let res := loopGo api stopAt total 0 urls sheet
        if running stopAt total then
          { sheet := res.sheet,
            events := res.events ++
              [Event.progress 100 (PyVal.str "完了"),
               Event.finished ("処理が完了しました。ファイルは " ++ filepath ++ " に保存されました。")],
            saved := Option.some res.sheet,
            writes := res.writes }
        else
          { sheet := res.sheet,
            events := res.events ++
              [Event.progress 100 (PyVal.str "完了"),
               Event.finished "処理が中断されました。"],
            saved := Option.none,
            writes := res.writes }

/-- The percentage carried by a progress event, `Option.none` for the
other events; `progressPcts l` lists the emitted percentages in order. -/
def progressPcts (l : List Event) : List Nat :=
  l.filterMap fun e =>
    match e with
    | Event.progress p _ => Option.some p
    | _ => Option.none

/-- Concrete two-row sheet of the spec's worked example: column B holds
two URLs, column C is empty. -/
def sheet8 : List RowEntry :=
  [{ b := PyVal.str "http://a.com", c := PyVal.none },
   { b := PyVal.str "http://b.com", c := PyVal.none }]

/-- API behaviour of the worked example: first call succeeds with
`shorturl`, second fails with `status 400` and an error message. -/
def api8 : Nat → ApiOutcome
  | 0 => ApiOutcome.json { status := Option.some 200, shorturl := Option.some "http://x/1", error := Option.none }
  | _ => ApiOutcome.json { status := Option.some 400, shorturl := Option.none, error := Option.some "bad url" }

/-- Concrete one-row sheet used for counterexamples and witnesses. -/
def sheet1 : List RowEntry :=
  [{ b := PyVal.str "http://a.com", c := PyVal.none }]

/-- API behaviour that always succeeds with the same short URL. -/
def api1 : Nat → ApiOutcome :=
  fun _ => ApiOutcome.json { status := Option.some 200, shorturl := Option.some "http://x/1", error := Option.none }

/-- API behaviour that always raises an unexpected (non-request)
exception inside the per-row block. -/
def apiBoom : Nat → ApiOutcome :=
  fun _ => ApiOutcome.otherError "boom"

/-- API behaviour that always raises a `requests.RequestException`. -/
def apiReqErr : Nat → ApiOutcome :=
  fun _ => ApiOutcome.requestError "timeout"

/-- Concrete sheet whose column B holds only falsy values: the empty
string, the int 0, the bool False, and an empty cell. -/
def sheetFalsy : List RowEntry :=
  [{ b := PyVal.str "", c := PyVal.none },
   { b := PyVal.int 0, c := PyVal.none },
   { b := PyVal.bool false, c := PyVal.none },
   { b := PyVal.none, c := PyVal.none }]

/-- Whether an event is a `log_updated` emission. -/
def Event.isLog : Event → Bool
  | Event.log _ => true
  | _ => false

/-! Unfolding and characterisation lemmas about the embedded worker,
shared by the claim theorems below. -/

theorem processRow_json_success (resp : ApiResponse) (i : Nat) (url : PyVal)
    (sheet : List RowEntry) (h : resp.status = Option.some 200) :
    processRow (ApiOutcome.json resp) i url sheet =
      { sheet := writeCell sheet i (pvOfOpt resp.shorturl),
        events := [Event.log ("成功: " ++ pyStr url ++ " -> " ++ optStr resp.shorturl)],
        writes := [(i, pvOfOpt resp.shorturl)] } := by
  simp [processRow, h]

theorem processRow_json_failure (resp : ApiResponse) (i : Nat) (url : PyVal)
    (sheet : List RowEntry) (h : ¬ resp.status = Option.some 200) :
    processRow (ApiOutcome.json resp) i url sheet =
      { sheet := sheet,
        events := [Event.log ("失敗: " ++ pyStr url ++ " (" ++ resp.error.getD "不明なエラー" ++ ")")],
        writes := [] } := by
  simp [processRow, h]

theorem processRow_writes (outcome : ApiOutcome) (i : Nat) (url : PyVal)
    (sheet : List RowEntry) :
    (processRow outcome i url sheet).writes = [] ∨
    ∃ resp, outcome = ApiOutcome.json resp ∧ resp.status = Option.some 200 ∧
      (processRow outcome i url sheet).writes = [(i, pvOfOpt resp.shorturl)] := by
  cases outcome with
  | json resp =>
    by_cases h : resp.status = Option.some 200
    · exact Or.inr ⟨resp, rfl, h, by simp [processRow, h]⟩
    · exact Or.inl (by simp [processRow, h])
  | requestError e => exact Or.inl rfl
  | otherError e => exact Or.inl rfl

theorem progressPcts_processRow (outcome : ApiOutcome) (i : Nat) (url : PyVal)
    (sheet : List RowEntry) :
    progressPcts (processRow outcome i url sheet).events = [] := by
  cases outcome with
  | json resp =>
    by_cases h : resp.status = Option.some 200 <;>
      simp [processRow, h, progressPcts]
  | requestError e => rfl
  | otherError e => rfl

theorem progressPcts_append (l1 l2 : List Event) :
    progressPcts (l1 ++ l2) = progressPcts l1 ++ progressPcts l2 :=
  List.filterMap_append l1 l2 _

theorem cellC_writeCell (sheet : List RowEntry) :
    ∀ (i : Nat) (v : PyVal), i < sheet.length → cellC (writeCell sheet i v) i = v := by
  induction sheet with
  | nil => intro i v h; simp at h
  | cons e rest ih =>
    intro i v h
    cases i with
    | zero => rfl
    | succ n =>
      have hn : n < rest.length := by simpa using h
      simpa [writeCell, cellC, List.getD] using ih n v hn

theorem loopGo_cons_run (api : Nat → ApiOutcome) (stopAt : Option Nat) (total i r : Nat)
    (url : PyVal) (rest : List (Nat × PyVal)) (sheet : List RowEntry)
    (h : running stopAt i = true) :
    loopGo api stopAt total i ((r, url) :: rest) sheet =
      { sheet := (loopGo api stopAt total (i + 1) rest (processRow (api i) r url sheet).sheet).sheet,
        events := Event.progress (pct i total) url ::
          ((processRow (api i) r url sheet).events ++
            (loopGo api stopAt total (i + 1) rest (processRow (api i) r url sheet).sheet).events),
        writes := (processRow (api i) r url sheet).writes ++
          (loopGo api stopAt total (i + 1) rest (processRow (api i) r url sheet).sheet).writes } := by
  simp [loopGo, h]

theorem loopGo_cons_stop (api : Nat → ApiOutcome) (stopAt : Option Nat) (total i r : Nat)
    (url : PyVal) (rest : List (Nat × PyVal)) (sheet : List RowEntry)
    (h : running stopAt i = false) :
    loopGo api stopAt total i ((r, url) :: rest) sheet =
      { sheet := sheet, events := [], writes := [] } := by
  simp [loopGo, h]

theorem loopGo_writes_mem (api : Nat → ApiOutcome) (stopAt : Option Nat) (total : Nat) :
    ∀ (urls : List (Nat × PyVal)) (i : Nat) (sheet : List RowEntry),
      ∀ p ∈ (loopGo api stopAt total i urls sheet).writes,
        ∃ j, ∃ hj : j < urls.length, ∃ resp,
          api (i + j) = ApiOutcome.json resp ∧ resp.status = Option.some 200 ∧
          p = ((urls.get ⟨j, hj⟩).1, pvOfOpt resp.shorturl) := by
  intro urls
  induction urls with
  | nil => intro i sheet p hp; simp [loopGo] at hp
  | cons u rest ih =>
    intro i sheet p hp
    obtain ⟨r, url⟩ := u
    by_cases hr : running stopAt i = true
    · rw [loopGo_cons_run api stopAt total i r url rest sheet hr] at hp
      rcases List.mem_append.mp hp with hp | hp
      · rcases processRow_writes (api i) r url sheet with hw | ⟨resp, ho, hs, hw⟩
        · rw [hw] at hp; simp at hp
        · rw [hw] at hp
          rw [List.mem_singleton.mp hp]
          refine ⟨0, by simp, resp, by simpa using ho, hs, ?_⟩
          simp [List.get_cons_zero]
      · obtain ⟨j, hj, resp, ho, hs, hpe⟩ :=
          ih (i + 1) (processRow (api i) r url sheet).sheet p hp
        refine ⟨j + 1, by simpa using Nat.succ_lt_succ hj, resp, ?_, hs, ?_⟩
        · rw [show i + (j + 1) = (i + 1) + j by omega]; exact ho
        · simpa [List.get_cons_succ] using hpe
    · rw [loopGo_cons_stop api stopAt total i r url rest sheet (by simpa using hr)] at hp
      simp at hp

theorem loopGo_none_pcts (api : Nat → ApiOutcome) (total : Nat) :
    ∀ (urls : List (Nat × PyVal)) (i : Nat) (sheet : List RowEntry),
      progressPcts (loopGo api Option.none total i urls sheet).events =
        (List.range' i urls.length).map (fun j => pct j total) := by
  intro urls
  induction urls with
  | nil => intro i sheet; rfl
  | cons u rest ih =>
    intro i sheet
    obtain ⟨r, url⟩ := u
    rw [loopGo_cons_run api Option.none total i r url rest sheet rfl]
    rw [show ((r, url) :: rest).length = rest.length + 1 from rfl,
        List.range'_succ i rest.length 1, List.map_cons]
    have hcons : progressPcts (Event.progress (pct i total) url ::
        ((processRow (api i) r url sheet).events ++
          (loopGo api Option.none total (i + 1) rest (processRow (api i) r url sheet).sheet).events)) =
        pct i total :: progressPcts
          ((processRow (api i) r url sheet).events ++
            (loopGo api Option.none total (i + 1) rest (processRow (api i) r url sheet).sheet).events) := by
      simp [progressPcts]
    rw [hcons, progressPcts_append, progressPcts_processRow, List.nil_append, ih]

theorem runWorker_none_events (filepath : String) (sheet : List RowEntry)
    (api : Nat → ApiOutcome) (h : ¬ (collectUrls sheet).length = 0) :
    (runWorker filepath (LoadResult.ok sheet) api Option.none).events =
      (loopGo api Option.none (collectUrls sheet).length 0 (collectUrls sheet) sheet).events ++
        [Event.progress 100 (PyVal.str "完了"),
         Event.finished ("処理が完了しました。ファイルは " ++ filepath ++ " に保存されました。")] := by
  simp [runWorker, running, h]

theorem runWorker_none_saved (filepath : String) (sheet : List RowEntry)
    (api : Nat → ApiOutcome) (h : ¬ (collectUrls sheet).length = 0) :
    (runWorker filepath (LoadResult.ok sheet) api Option.none).saved =
      Option.some (runWorker filepath (LoadResult.ok sheet) api Option.none).sheet := by
  simp [runWorker, running, h]

theorem runWorker_none_last (filepath : String) (sheet : List RowEntry)
    (api : Nat → ApiOutcome) (h : ¬ (collectUrls sheet).length = 0) :
    (runWorker filepath (LoadResult.ok sheet) api Option.none).events.getLast? =
      Option.some (Event.finished ("処理が完了しました。ファイルは " ++ filepath ++ " に保存されました。")) := by
  rw [runWorker_none_events filepath sheet api h]
  rw [show (loopGo api Option.none (collectUrls sheet).length 0 (collectUrls sheet) sheet).events ++
        [Event.progress 100 (PyVal.str "完了"),
         Event.finished ("処理が完了しました。ファイルは " ++ filepath ++ " に保存されました。")] =
      ((loopGo api Option.none (collectUrls sheet).length 0 (collectUrls sheet) sheet).events ++
        [Event.progress 100 (PyVal.str "完了")]) ++
        [Event.finished ("処理が完了しました。ファイルは " ++ filepath ++ " に保存されました。")] by simp]
  exact List.getLast?_concat _

theorem mem_collectUrlsFrom (sheet : List RowEntry) :
    ∀ (s r : Nat) (v : PyVal),
      (r, v) ∈ collectUrlsFrom s sheet ↔
        ∃ j, ∃ hj : j < sheet.length,
          r = s + j ∧ (sheet.get ⟨j, hj⟩).b = v ∧ v.truthy = true := by
  induction sheet with
  | nil => intro s r v; simp [collectUrlsFrom]
  | cons e rest ih =>
    intro s r v
    simp only [collectUrlsFrom]
    by_cases ht : e.b.truthy = true
    · rw [if_pos ht]
      constructor
      · intro hmem
        rcases List.mem_cons.mp hmem with hmem | hmem
        · obtain ⟨h1, h2⟩ := Prod.mk.injEq r v s e.b |>.mp hmem
          refine ⟨0, by simp, by omega, ?_, ?_⟩
          · exact h2.symm
          · rw [h2]; exact ht
        · obtain ⟨j, hj, hrj, hb, hv⟩ := (ih (s + 1) r v).mp hmem
          refine ⟨j + 1, by simpa using Nat.succ_lt_succ hj, by omega, ?_, hv⟩
          rw [List.get_cons_succ]; exact hb
      · rintro ⟨j, hj, hrj, hb, hv⟩
        cases j with
        | zero =>
          apply List.mem_cons.mpr
          left
          have hb' : e.b = v := hb
          rw [Prod.mk.injEq]
          exact ⟨by omega, hb'.symm⟩
        | succ n =>
          apply List.mem_cons.mpr
          right
          apply (ih (s + 1) r v).mpr
          refine ⟨n, by simpa using hj, by omega, ?_, hv⟩
          rw [List.get_cons_succ] at hb
          exact hb
    · rw [if_neg ht]
      rw [ih (s + 1) r v]
      constructor
      · rintro ⟨j, hj, hrj, hb, hv⟩
        exact ⟨j + 1, by simpa using Nat.succ_lt_succ hj, by omega,
          by rw [List.get_cons_succ]; exact hb, hv⟩
      · rintro ⟨j, hj, hrj, hb, hv⟩
        cases j with
        | zero =>
          exfalso
          have hb' : e.b = v := hb
          rw [← hb'] at hv
          exact ht hv
        | succ n =>
          refine ⟨n, by simpa using hj, by omega, ?_, hv⟩
          rw [List.get_cons_succ] at hb
          exact hb

/-! Claim theorems. -/

/-- C1: for a row whose API JSON response has `status == 200`, the worker
writes the response's `shorturl` value into that row's output cell (column
3); for a row whose response has any other status the output cells are
left unchanged and exactly one failure log line is emitted for that row. -/
theorem claim_C1 (resp : ApiResponse) (i : Nat) (url : PyVal) (sheet : List RowEntry)
    (hi : i < sheet.length) :
    (resp.status = Option.some 200 →
      cellC (processRow (ApiOutcome.json resp) i url sheet).sheet i = pvOfOpt resp.shorturl ∧
      (processRow (ApiOutcome.json resp) i url sheet).writes = [(i, pvOfOpt resp.shorturl)]) ∧
    (¬ resp.status = Option.some 200 →
      (processRow (ApiOutcome.json resp) i url sheet).sheet = sheet ∧
      (processRow (ApiOutcome.json resp) i url sheet).events =
        [Event.log ("失敗: " ++ pyStr url ++ " (" ++ resp.error.getD "不明なエラー" ++ ")")]) := by
  constructor
  · intro h
    rw [processRow_json_success resp i url sheet h]
    exact ⟨cellC_writeCell sheet i _ hi, rfl⟩
  · intro h
    rw [processRow_json_failure resp i url sheet h]
    exact ⟨rfl, rfl⟩

/-- C1 witness: the theorem applied to a one-row sheet, once with a 200
response and once with a 400 response. -/
theorem claim_C1_witness :
    cellC (processRow (ApiOutcome.json
        { status := Option.some 200, shorturl := Option.some "http://x/1", error := Option.none })
        0 (PyVal.str "http://a.com") sheet1).sheet 0 = pvOfOpt (Option.some "http://x/1") ∧
    (processRow (ApiOutcome.json
        { status := Option.some 400, shorturl := Option.none, error := Option.some "bad url" })
        0 (PyVal.str "http://a.com") sheet1).sheet = sheet1 :=
  ⟨((claim_C1 _ 0 (PyVal.str "http://a.com") sheet1 (by decide)).1 rfl).1,
   ((claim_C1 _ 0 (PyVal.str "http://a.com") sheet1 (by decide)).2 (by decide)).1⟩

/-- C2: over a whole run, every output-cell write in the write trace comes
from a call whose JSON response had `status == 200`, targets that call's
row, and stores that response's `shorturl`; no other operation of the
worker writes an output cell. -/
theorem claim_C2 (filepath : String) (sheet : List RowEntry) (api : Nat → ApiOutcome)
    (stopAt : Option Nat) :
    ∀ p ∈ (runWorker filepath (LoadResult.ok sheet) api stopAt).writes,
      ∃ j, ∃ hj : j < (collectUrls sheet).length, ∃ resp,
        api j = ApiOutcome.json resp ∧ resp.status = Option.some 200 ∧
        p = (((collectUrls sheet).get ⟨j, hj⟩).1, pvOfOpt resp.shorturl) := by
  intro p hp
  by_cases h0 : (collectUrls sheet).length = 0
  · simp [runWorker, h0] at hp
  · have hw : p ∈ (loopGo api stopAt (collectUrls sheet).length 0 (collectUrls sheet) sheet).writes := by
      by_cases hr : running stopAt (collectUrls sheet).length = true
      · simpa [runWorker, h0, hr] using hp
      · have hr' : running stopAt (collectUrls sheet).length = false := by simpa using hr
        simpa [runWorker, h0, hr'] using hp
    obtain ⟨j, hj, resp, ho, hs, hpe⟩ :=
      loopGo_writes_mem api stopAt (collectUrls sheet).length (collectUrls sheet) 0 sheet p hw
    exact ⟨j, hj, resp, by simpa using ho, hs, hpe⟩

/-- C2 witness: the theorem applied to the write performed in the worked
example's run. -/
theorem claim_C2_witness :
    (0, PyVal.str "http://x/1") ∈ (runWorker "urls.xlsx" (LoadResult.ok sheet8) api8 Option.none).writes ∧
    (∃ j, ∃ hj : j < (collectUrls sheet8).length, ∃ resp,
      api8 j = ApiOutcome.json resp ∧ resp.status = Option.some 200 ∧
      (0, PyVal.str "http://x/1") = (((collectUrls sheet8).get ⟨j, hj⟩).1, pvOfOpt resp.shorturl)) :=
  ⟨by decide, claim_C2 "urls.xlsx" sheet8 api8 Option.none (0, PyVal.str "http://x/1") (by decide)⟩

/-- C3: when cancellation is observed after `k` rows have been processed
and before the next one, with `k` smaller than the number of collected
URLs, the worker never calls `workbook.save`, so nothing is persisted and
the on-disk file is unchanged. -/
theorem claim_C3 (filepath : String) (sheet : List RowEntry) (api : Nat → ApiOutcome)
    (k : Nat) (hk : k < (collectUrls sheet).length) :
    (runWorker filepath (LoadResult.ok sheet) api (Option.some k)).saved = Option.none := by
  have h0 : ¬ (collectUrls sheet).length = 0 := by omega
  have hr : running (Option.some k) (collectUrls sheet).length = false := by
    simp only [running, decide_eq_false_iff_not]
    omega
  simp [runWorker, h0, hr]

/-- C3 witness: the theorem applied to a one-row sheet cancelled before
its only row. -/
theorem claim_C3_witness :
    (runWorker "urls.xlsx" (LoadResult.ok sheet1) api1 (Option.some 0)).saved = Option.none :=
  claim_C3 "urls.xlsx" sheet1 api1 0 (by decide)

/-- C7: when no cell of column 2 from row 2 onward is truthy, the run
emits no progress events and no log lines, emits exactly the one terminal
message saying no URLs were found, performs no write, and never saves. -/
theorem claim_C7 (filepath : String) (sheet : List RowEntry) (api : Nat → ApiOutcome)
    (stopAt : Option Nat) (h : collectUrls sheet = []) :
    runWorker filepath (LoadResult.ok sheet) api stopAt =
      { sheet := sheet,
        events := [Event.finished "短縮するURLが見つかりませんでした。"],
        saved := Option.none, writes := [] } := by
  simp [runWorker, h]

/-- C7 witness: the theorem applied to a sheet whose column B holds only
falsy values. -/
theorem claim_C7_witness :
    runWorker "urls.xlsx" (LoadResult.ok sheetFalsy) api1 Option.none =
      { sheet := sheetFalsy,
        events := [Event.finished "短縮するURLが見つかりませんでした。"],
        saved := Option.none, writes := [] } :=
  claim_C7 "urls.xlsx" sheetFalsy api1 Option.none (by decide)

/-- C9: a JSON response with `status == 200` but no `shorturl` field still
writes that row's output cell, setting it to `None`, and emits a success
log line ending in `None`. -/
theorem claim_C9 (resp : ApiResponse) (i : Nat) (url : PyVal) (sheet : List RowEntry)
    (h200 : resp.status = Option.some 200) (hsu : resp.shorturl = Option.none) :
    (processRow (ApiOutcome.json resp) i url sheet).writes = [(i, PyVal.none)] ∧
    (processRow (ApiOutcome.json resp) i url sheet).events =
      [Event.log ("成功: " ++ pyStr url ++ " -> None")] ∧
    (i < sheet.length → cellC (processRow (ApiOutcome.json resp) i url sheet).sheet i = PyVal.none) := by
  rw [processRow_json_success resp i url sheet h200, hsu]
  refine ⟨rfl, ?_, fun hi => cellC_writeCell sheet i _ hi⟩
  have hstr : (" -> " : String) ++ optStr Option.none = " -> None" := by decide
  rw [String.append_assoc, hstr]

/-- C9 witness: the theorem applied to a 200 response missing its
`shorturl` field on a one-row sheet. -/
theorem claim_C9_witness :
    (processRow (ApiOutcome.json { status := Option.some 200, shorturl := Option.none, error := Option.none })
        0 (PyVal.str "http://a.com") sheet1).writes = [(0, PyVal.none)] ∧
    (processRow (ApiOutcome.json { status := Option.some 200, shorturl := Option.none, error := Option.none })
        0 (PyVal.str "http://a.com") sheet1).events =
      [Event.log ("成功: " ++ pyStr (PyVal.str "http://a.com") ++ " -> None")] ∧
    cellC (processRow (ApiOutcome.json { status := Option.some 200, shorturl := Option.none, error := Option.none })
        0 (PyVal.str "http://a.com") sheet1).sheet 0 = PyVal.none :=
  ⟨(claim_C9 _ 0 _ sheet1 rfl rfl).1, (claim_C9 _ 0 _ sheet1 rfl rfl).2.1,
   (claim_C9 _ 0 _ sheet1 rfl rfl).2.2 (by decide)⟩

/-- C4 counterexample: on a one-URL sheet a complete run emits two
progress events (0 percent for the row, then the final 100 percent), not
one, so the claimed count of exactly N progress events fails at N = 1. -/
theorem claim_C4_counterexample :
    ¬ ((progressPcts (runWorker "urls.xlsx" (LoadResult.ok sheet1) api1 Option.none).events).length
        = (collectUrls sheet1).length) := by
  decide

/-- C4 as amended: a non-cancelled run over N collected URLs (N at least
one) emits exactly N + 1 progress events -- one per row plus the final
100-percent event after the loop -- their percentage values are
non-decreasing, and the last one is 100. -/
theorem claim_C4_amended (filepath : String) (sheet : List RowEntry) (api : Nat → ApiOutcome)
    (h : ¬ (collectUrls sheet).length = 0) :
    (progressPcts (runWorker filepath (LoadResult.ok sheet) api Option.none).events).length =
      (collectUrls sheet).length + 1 ∧
    List.Pairwise (· ≤ ·)
      (progressPcts (runWorker filepath (LoadResult.ok sheet) api Option.none).events) ∧
    (progressPcts (runWorker filepath (LoadResult.ok sheet) api Option.none).events).getLast? =
      Option.some 100 := by
  have hp : progressPcts (runWorker filepath (LoadResult.ok sheet) api Option.none).events =
      (List.range' 0 (collectUrls sheet).length).map
        (fun j => pct j (collectUrls sheet).length) ++ [100] := by
    rw [runWorker_none_events filepath sheet api h, progressPcts_append,
        loopGo_none_pcts api (collectUrls sheet).length (collectUrls sheet) 0 sheet]
    rfl
  rw [hp]
  refine ⟨by simp, ?_, List.getLast?_concat _⟩
  rw [List.pairwise_append]
  refine ⟨?_, by simp, ?_⟩
  · apply List.pairwise_map.mpr
    apply (List.pairwise_lt_range' 0 (collectUrls sheet).length).imp
    intro a b hab
    exact Nat.div_le_div_right (Nat.mul_le_mul_right 100 (Nat.le_of_lt hab))
  · intro a ha b hb
    rw [List.mem_singleton.mp hb]
    obtain ⟨j, hj, rfl⟩ := List.mem_map.mp ha
    have hjN : j < (collectUrls sheet).length := by
      have := List.mem_range'_1.mp hj
      omega
    have h1 : j * 100 / (collectUrls sheet).length ≤
        (collectUrls sheet).length * 100 / (collectUrls sheet).length :=
      Nat.div_le_div_right (Nat.mul_le_mul_right 100 (Nat.le_of_lt hjN))
    have h2 : (collectUrls sheet).length * 100 / (collectUrls sheet).length = 100 :=
      Nat.mul_div_cancel_left 100 (by omega)
    calc pct j (collectUrls sheet).length
        ≤ (collectUrls sheet).length * 100 / (collectUrls sheet).length := h1
      _ = 100 := h2

/-- C4 amended witness: the amended theorem applied to the two-row worked
example, where the percentages are 0, 50, 100. -/
theorem claim_C4_amended_witness :
    (progressPcts (runWorker "urls.xlsx" (LoadResult.ok sheet8) api8 Option.none).events).length =
      (collectUrls sheet8).length + 1 ∧
    List.Pairwise (· ≤ ·)
      (progressPcts (runWorker "urls.xlsx" (LoadResult.ok sheet8) api8 Option.none).events) ∧
    (progressPcts (runWorker "urls.xlsx" (LoadResult.ok sheet8) api8 Option.none).events).getLast? =
      Option.some 100 :=
  claim_C4_amended "urls.xlsx" sheet8 api8 (by decide)

/-- C5: a row whose call raises a `requests.RequestException` produces
exactly one log line, leaves the sheet untouched and writes nothing; and
whatever each call's outcome is, a non-cancelled run still reaches the
save and its success message, so a per-row network error never aborts the
run. -/
theorem claim_C5 :
    (∀ (e : String) (i : Nat) (url : PyVal) (sheet : List RowEntry),
        (processRow (ApiOutcome.requestError e) i url sheet).sheet = sheet ∧
        (processRow (ApiOutcome.requestError e) i url sheet).writes = [] ∧
        (processRow (ApiOutcome.requestError e) i url sheet).events =
          [Event.log ("APIリクエストエラー: " ++ pyStr url ++ " (" ++ e ++ ")")]) ∧
    (∀ (filepath : String) (sheet : List RowEntry) (api : Nat → ApiOutcome),
        ¬ (collectUrls sheet).length = 0 →
        (runWorker filepath (LoadResult.ok sheet) api Option.none).saved =
          Option.some (runWorker filepath (LoadResult.ok sheet) api Option.none).sheet ∧
        (runWorker filepath (LoadResult.ok sheet) api Option.none).events.getLast? =
          Option.some (Event.finished
            ("処理が完了しました。ファイルは " ++ filepath ++ " に保存されました。"))) :=
  ⟨fun _ _ _ _ => ⟨rfl, rfl, rfl⟩,
   fun filepath sheet api h =>
     ⟨runWorker_none_saved filepath sheet api h, runWorker_none_last filepath sheet api h⟩⟩

/-- C5 witness: the theorem applied to a one-row sheet whose only call
raises a `requests.RequestException`: the row is logged and skipped, and
the run still saves. -/
theorem claim_C5_witness :
    (processRow (ApiOutcome.requestError "timeout") 0 (PyVal.str "http://a.com") sheet1).sheet = sheet1 ∧
    (runWorker "urls.xlsx" (LoadResult.ok sheet1) apiReqErr Option.none).saved =
      Option.some (runWorker "urls.xlsx" (LoadResult.ok sheet1) apiReqErr Option.none).sheet :=
  ⟨(claim_C5.1 "timeout" 0 (PyVal.str "http://a.com") sheet1).1,
   (claim_C5.2 "urls.xlsx" sheet1 apiReqErr (by decide)).1⟩

/-- C6 counterexample: with an unexpected (non-request) exception raised
during the only row's processing, the run logs the row, continues, emits
the success terminal message and saves the workbook -- it does not abort
unsaved as the claim states. -/
theorem claim_C6_counterexample :
    Event.log "エラー: http://a.com (boom)" ∈
      (runWorker "t.xlsx" (LoadResult.ok sheet1) apiBoom Option.none).events ∧
    ¬ ((runWorker "t.xlsx" (LoadResult.ok sheet1) apiBoom Option.none).saved = Option.none) ∧
    (runWorker "t.xlsx" (LoadResult.ok sheet1) apiBoom Option.none).events.getLast? =
      Option.some (Event.finished "処理が完了しました。ファイルは t.xlsx に保存されました。") := by
  refine ⟨by decide, by decide, by decide⟩

/-- C6 as amended: an unexpected exception raised outside the per-row
block (for example while loading the workbook) aborts the run with the
single generic terminal message and without saving, so in-memory writes
are never persisted; an unexpected exception inside a row's processing is
instead caught there, logged for that row without writing, and the run
continues. -/
theorem claim_C6_amended :
    (∀ (filepath e : String) (api : Nat → ApiOutcome) (stopAt : Option Nat),
        runWorker filepath (LoadResult.loadError e) api stopAt =
          { sheet := [],
            events := [Event.finished ("予期せぬエラーが発生しました: " ++ e)],
            saved := Option.none, writes := [] }) ∧
    (∀ (e : String) (i : Nat) (url : PyVal) (sheet : List RowEntry),
        (processRow (ApiOutcome.otherError e) i url sheet).sheet = sheet ∧
        (processRow (ApiOutcome.otherError e) i url sheet).writes = [] ∧
        (processRow (ApiOutcome.otherError e) i url sheet).events =
          [Event.log ("エラー: " ++ pyStr url ++ " (" ++ e ++ ")")]) :=
  ⟨fun _ _ _ _ => rfl, fun _ _ _ _ => ⟨rfl, rfl, rfl⟩⟩

/-- C8: the spec's worked example, evaluated end to end: column C ends as
the short URL then empty, the events are one progress and one log line per
row (one success, one failure) followed by the final progress and the
success terminal message, the only write is the first row's, and the saved
file holds the partial result. -/
theorem claim_C8 :
    runWorker "urls.xlsx" (LoadResult.ok sheet8) api8 Option.none =
      { sheet := [{ b := PyVal.str "http://a.com", c := PyVal.str "http://x/1" },
                  { b := PyVal.str "http://b.com", c := PyVal.none }],
        events := [Event.progress 0 (PyVal.str "http://a.com"),
                   Event.log "成功: http://a.com -> http://x/1",
                   Event.progress 50 (PyVal.str "http://b.com"),
                   Event.log "失敗: http://b.com (bad url)",
                   Event.progress 100 (PyVal.str "完了"),
                   Event.finished "処理が完了しました。ファイルは urls.xlsx に保存されました。"],
        saved := Option.some
                  [{ b := PyVal.str "http://a.com", c := PyVal.str "http://x/1" },
                   { b := PyVal.str "http://b.com", c := PyVal.none }],
        writes := [(0, PyVal.str "http://x/1")] } ∧
    ((runWorker "urls.xlsx" (LoadResult.ok sheet8) api8 Option.none).events.filter Event.isLog).length = 2 :=
  ⟨rfl, rfl⟩

/-- C10: a URL cell is collected exactly when its value is truthy, and the
Python-falsy values 0, False, the empty string and None are all treated as
empty, so such a row is never part of the collected list the loop
iterates. -/
theorem claim_C10 :
    (PyVal.truthy (PyVal.int 0) = false ∧ PyVal.truthy (PyVal.bool false) = false ∧
     PyVal.truthy (PyVal.str "") = false ∧ PyVal.truthy PyVal.none = false) ∧
    (∀ (sheet : List RowEntry) (i : Nat) (v : PyVal),
        (i, v) ∈ collectUrls sheet ↔
          ∃ hi : i < sheet.length, (sheet.get ⟨i, hi⟩).b = v ∧ v.truthy = true) := by
  refine ⟨⟨by decide, rfl, by decide, rfl⟩, ?_⟩
  intro sheet i v
  rw [collectUrls, mem_collectUrlsFrom sheet 0 i v]
  constructor
  · rintro ⟨j, hj, hij, hb, hv⟩
    have hji : j = i := by omega
    subst hji
    exact ⟨hj, hb, hv⟩
  · rintro ⟨hi, hb, hv⟩
    exact ⟨i, hi, by omega, hb, hv⟩

/-- C10 witness: the characterisation applied to the worked example's
sheet, whose first row is collected, and to the all-falsy sheet, none of
whose rows is collected. -/
theorem claim_C10_witness :
    (0, PyVal.str "http://a.com") ∈ collectUrls sheet8 ∧
    ¬ ((1, PyVal.int 0) ∈ collectUrls sheetFalsy) :=
  ⟨(claim_C10.2 sheet8 0 (PyVal.str "http://a.com")).mpr ⟨by decide, by decide, by decide⟩,
   fun hmem => by
     obtain ⟨hi, hb, hv⟩ := (claim_C10.2 sheetFalsy 1 (PyVal.int 0)).mp hmem
     exact absurd hv (by decide)⟩
